import Mathlib

/-!
Verification of the resilient KV-store client (`src/client/kv_client.py`).

The embedding models the retry orchestrator `KVClient._request`, the
per-attempt outcome classification inside its `try` block, the backoff
computation `KVClient._backoff_delay`, the `base_url` normalization done in
`KVClient.__init__`, and the five public operations
(create/get/update/delete/list) as request builders.

Abstractions used throughout:
- the network is a function `responses : Nat → HttpAttempt` giving the result
  of the HTTP attempt with each zero-based attempt index;
- `response.json()` decoding is abstracted: a successful response's payload is
  its body string;
- `time.sleep` is modelled by counting sleeps; `random.uniform(0, jitter)` is
  modelled as an explicit sample constrained to the half-open interval.
-/

namespace KVSpec

/-- What one HTTP attempt can produce at the transport level: a response with
a status code and body text, a timeout (`requests.exceptions.Timeout`), or a
connection failure (`requests.exceptions.ConnectionError`). -/
inductive HttpAttempt where
  | response (status : Nat) (body : String)
  | timeout
  | connectionFailure
deriving DecidableEq, Repr

/-- The exceptions `_request` can raise, distinguished exactly as the source
distinguishes them (by exception class and message format):
`RateLimitError("Rate limit exceeded")`, `KVClientError(f"{status}: {text}")`
for 4xx, `KVClientError(f"Server error {status}")` for 5xx, the two transport
exceptions, and the terminal `KVClientError("Max retries exceeded")`. -/
inductive KVError where
  | rateLimit
  | clientError (status : Nat) (text : String)
  | serverError (status : Nat)
  | timeoutError
  | connectionError
  | maxRetriesExceeded
deriving DecidableEq, Repr

/-- Outcome of one iteration's `try` block in `_request`: a returned payload,
a raised `RateLimitError` (caught by the first `except`), or one of the
exceptions caught by the second `except` clause. -/
inductive AttemptOutcome where
  | success (body : String)
  | rateLimited
  | failure (e : KVError)
deriving DecidableEq, Repr

/-- The body of the `try` block in `_request` (kv_client.py lines 44-70),
given the transport result of this attempt:
`status == 429` raises `RateLimitError`; `status < 400` returns the decoded
body; `400 <= status < 500` raises `KVClientError(f"{status}: {text}")`;
otherwise raises `KVClientError(f"Server error {status}")`; `Timeout` and
`ConnectionError` propagate to the second `except` clause. -/
def classify : HttpAttempt → AttemptOutcome
  | .response status body =>
      if status == 429 then .rateLimited
      else if status < 400 then .success body
      else if status < 500 then .failure (.clientError status body)
      else .failure (.serverError status)
  | .timeout => .failure .timeoutError
  | .connectionFailure => .failure .connectionError

/-- A `_request` call terminates by returning a payload or raising an
error. -/
inductive CallResult where
  | ok (body : String)
  | error (e : KVError)
deriving DecidableEq, Repr

/-- Result of a whole `_request` call: the returned value or raised error,
with the number of HTTP attempts issued and backoff sleeps performed. -/
structure RunResult where
  result : CallResult
  attempts : Nat
  sleeps : Nat
deriving DecidableEq, Repr

/-- The `for attempt in range(self.max_retries)` loop of `_request`
(kv_client.py lines 43-85). `fuel` is the number of loop iterations that
remain (`max_retries - attempt`); when it reaches zero the loop exits and
line 85 raises `KVClientError("Max retries exceeded")`. A `RateLimitError`
is caught by the first `except`: sleep, next iteration, with no check of the
attempt ceiling. Every other caught exception (`Timeout`, `ConnectionError`,
`KVClientError` — including the 4xx client error) is re-raised when
`attempt == self.max_retries - 1` and otherwise leads to sleep and retry. -/
def requestAux (responses : Nat → HttpAttempt) (maxRetries : Int) :
    Nat → Nat → RunResult
  | _, 0 => ⟨.error .maxRetriesExceeded, 0, 0⟩
  | attempt, fuel + 1 =>
    match classify (responses attempt) with
    | .success body => ⟨.ok body, 1, 0⟩
    | .rateLimited =>
        let rest := requestAux responses maxRetries (attempt + 1) fuel
        ⟨rest.result, rest.attempts + 1, rest.sleeps + 1⟩
    | .failure e =>
        if (attempt : Int) = maxRetries - 1 then ⟨.error e, 1, 0⟩
        else
          let rest := requestAux responses maxRetries (attempt + 1) fuel
          ⟨rest.result, rest.attempts + 1, rest.sleeps + 1⟩

/-- `KVClient._request` under a given response sequence: run the attempt loop
from attempt 0.  `range(max_retries)` performs `max_retries` iterations when
`max_retries > 0` and none otherwise, which is `Int.toNat max_retries`. -/
def privRequest (responses : Nat → HttpAttempt) (maxRetries : Int) : RunResult :=
  requestAux responses maxRetries 0 maxRetries.toNat

/-- `KVClient._backoff_delay` (kv_client.py lines 87-90):
`self.backoff_base * (2 ** attempt) + random.uniform(0, self.jitter)`,
with the random draw made explicit as `jitterSample`. -/
def backoff_delay (backoffBase : ℚ) (attempt : Nat) (jitterSample : ℚ) : ℚ :=
  backoffBase * 2 ^ attempt + jitterSample

/-- `base_url.rstrip("/")` from `KVClient.__init__` (kv_client.py line 24):
remove every trailing `'/'` character. -/
def rstripSlash (l : List Char) : List Char :=
  (l.reverse.dropWhile (fun c => c == '/')).reverse

/-- The `self.base_url` field stored by the constructor. -/
def initBaseUrl (base_url : String) : String :=
  String.mk (rstripSlash base_url.data)

/-- `url = f"{self.base_url}{path}"` (kv_client.py line 41), with the stored
base url coming from the constructor. -/
def requestUrl (base_url : String) (path : String) : String :=
  initBaseUrl base_url ++ path

/-- The five public operations and their arguments (kv_client.py lines
96-142). -/
inductive Operation where
  | create (key value : String)
  | get (key : String)
  | update (key value : String)
  | delete (key : String)
  | list (page pageSize : Int)
deriving DecidableEq, Repr

/-- The path each operation passes to `_request`. -/
def opPath : Operation → String
  | .create _ _ => "/items/"
  | .get key => "/items/" ++ key
  | .update key _ => "/items/" ++ key
  | .delete key => "/items/" ++ key
  | .list _ _ => "/items/"

/-- An outbound HTTP request as assembled by `_request` for
`requests.request`: method, full url, query params, json body. -/
structure HttpRequest where
  method : String
  url : String
  params : List (String × String)
  jsonBody : List (String × String)
deriving DecidableEq, Repr

/-- The request each public operation builds (method, path, params, json
from kv_client.py lines 96-142, url from line 41). -/
def buildRequest (base_url : String) : Operation → HttpRequest
  | .create key value =>
      ⟨"POST", requestUrl base_url "/items/", [],
        [("key", key), ("value", value)]⟩
  | .get key => ⟨"GET", requestUrl base_url ("/items/" ++ key), [], []⟩
  | .update key value =>
      ⟨"PUT", requestUrl base_url ("/items/" ++ key), [("value", value)], []⟩
  | .delete key => ⟨"DELETE", requestUrl base_url ("/items/" ++ key), [], []⟩
  | .list page pageSize =>
      ⟨"GET", requestUrl base_url "/items/",
        [("page", toString page), ("page_size", toString pageSize)], []⟩

/-! ### Helper lemmas about the attempt loop -/

/-- Unfolding one loop iteration whose attempt succeeds. -/
theorem requestAux_success_step (r : Nat → HttpAttempt) (m : Int) (a k : Nat)
    (b : String) (h : classify (r a) = .success b) :
    requestAux r m a (k + 1) = ⟨.ok b, 1, 0⟩ := by
  simp [requestAux, h]

/-- Unfolding one loop iteration whose attempt is rate limited: sleep and go
to the next iteration with no check of the attempt ceiling. -/
theorem requestAux_rateLimited_step (r : Nat → HttpAttempt) (m : Int)
    (a k : Nat) (h : classify (r a) = .rateLimited) :
    requestAux r m a (k + 1) =
      ⟨(requestAux r m (a + 1) k).result,
       (requestAux r m (a + 1) k).attempts + 1,
       (requestAux r m (a + 1) k).sleeps + 1⟩ := by
  simp [requestAux, h]

/-- Unfolding the final allowed iteration when the attempt raises an
exception caught by the second `except` clause: the exception is re-raised. -/
theorem requestAux_failure_last_step (r : Nat → HttpAttempt) (m : Int)
    (a k : Nat) (e : KVError) (h : classify (r a) = .failure e)
    (hl : (a : Int) = m - 1) :
    requestAux r m a (k + 1) = ⟨.error e, 1, 0⟩ := by
  simp [requestAux, h, hl]

/-- Unfolding a non-final iteration whose attempt raises an exception caught
by the second `except` clause: sleep and go to the next iteration. -/
theorem requestAux_failure_step (r : Nat → HttpAttempt) (m : Int)
    (a k : Nat) (e : KVError) (h : classify (r a) = .failure e)
    (hl : ¬ ((a : Int) = m - 1)) :
    requestAux r m a (k + 1) =
      ⟨(requestAux r m (a + 1) k).result,
       (requestAux r m (a + 1) k).attempts + 1,
       (requestAux r m (a + 1) k).sleeps + 1⟩ := by
  simp [requestAux, h, hl]

/-- The loop body performs at most one HTTP attempt per unit of fuel. -/
theorem requestAux_attempts_le (r : Nat → HttpAttempt) (m : Int) :
    ∀ fuel a : Nat, (requestAux r m a fuel).attempts ≤ fuel := by
  intro fuel
  induction fuel with
  | zero => intro a; simp [requestAux]
  | succ k ih =>
    intro a
    rcases h : classify (r a) with b | _ | e
    · rw [requestAux_success_step r m a k b h]
      simp
    · rw [requestAux_rateLimited_step r m a k h]
      exact Nat.succ_le_succ (ih (a + 1))
    · by_cases hl : (a : Int) = m - 1
      · rw [requestAux_failure_last_step r m a k e h hl]
        simp
      · rw [requestAux_failure_step r m a k e h hl]
        exact Nat.succ_le_succ (ih (a + 1))

/-- When every attempt is rate-limited, the loop runs through all its fuel,
sleeping once per iteration, and ends with the generic error of line 85. -/
theorem requestAux_all_rate_limited (r : Nat → HttpAttempt) (m : Int)
    (hall : ∀ i, classify (r i) = .rateLimited) :
    ∀ fuel a : Nat,
      requestAux r m a fuel = ⟨.error .maxRetriesExceeded, fuel, fuel⟩ := by
  intro fuel
  induction fuel with
  | zero => intro a; rfl
  | succ k ih =>
    intro a
    rw [requestAux_rateLimited_step r m a k (hall a), ih (a + 1)]

/-- When every attempt raises the same exception caught by the second
`except` clause, the final allowed attempt re-raises that exception. -/
theorem requestAux_const_failure (r : Nat → HttpAttempt) (m : Int) (e : KVError)
    (hall : ∀ i, classify (r i) = .failure e) :
    ∀ fuel a : Nat, 1 ≤ fuel → (a : Int) + (fuel : Int) = m →
      (requestAux r m a fuel).result = .error e := by
  intro fuel
  induction fuel with
  | zero => intro a h _; omega
  | succ k ih =>
    intro a _ hinv
    by_cases hk : k = 0
    · subst hk
      have hl : (a : Int) = m - 1 := by push_cast at hinv ⊢; omega
      rw [requestAux_failure_last_step r m a 0 e (hall a) hl]
    · have hl : ¬ ((a : Int) = m - 1) := by push_cast at hinv ⊢; omega
      rw [requestAux_failure_step r m a k e (hall a) hl]
      exact ih (a + 1) (by omega) (by push_cast at hinv ⊢; omega)

/-- `classify` never produces a `RateLimitError` through the `failure`
channel: the raised `RateLimitError` is always caught by the first `except`
clause, never by the re-raising one. -/
theorem classify_failure_ne_rateLimit (a : HttpAttempt) (e : KVError)
    (h : classify a = .failure e) : e ≠ .rateLimit := by
  cases a with
  | response s b =>
    simp only [classify] at h
    split at h
    · simp at h
    · split at h
      · simp at h
      · split at h
        · simp only [AttemptOutcome.failure.injEq] at h
          subst h; simp
        · simp only [AttemptOutcome.failure.injEq] at h
          subst h; simp
  | timeout =>
    simp only [classify, AttemptOutcome.failure.injEq] at h
    subst h; simp
  | connectionFailure =>
    simp only [classify, AttemptOutcome.failure.injEq] at h
    subst h; simp

/-- `classify` never fabricates the generic exhaustion error either: the
`failure` channel carries only the per-attempt exceptions. -/
theorem classify_failure_ne_maxRetries (a : HttpAttempt) (e : KVError)
    (h : classify a = .failure e) : e ≠ .maxRetriesExceeded := by
  cases a with
  | response s b =>
    simp only [classify] at h
    split at h
    · simp at h
    · split at h
      · simp at h
      · split at h
        · simp only [AttemptOutcome.failure.injEq] at h
          subst h; simp
        · simp only [AttemptOutcome.failure.injEq] at h
          subst h; simp
  | timeout =>
    simp only [classify, AttemptOutcome.failure.injEq] at h
    subst h; simp
  | connectionFailure =>
    simp only [classify, AttemptOutcome.failure.injEq] at h
    subst h; simp

/-- Necessity: a run that performs at least one attempt ends in the generic
"Max retries exceeded" error only if its final counted attempt was
rate-limited — a success returns, and a caught exception on the final
attempt is re-raised as itself, never as the generic error. -/
theorem requestAux_generic_implies_last_rate_limited
    (r : Nat → HttpAttempt) (m : Int) :
    ∀ fuel a : Nat, (a : Int) + (fuel : Int) = m → 1 ≤ fuel →
      (requestAux r m a fuel).result = .error .maxRetriesExceeded →
      classify (r (a + fuel - 1)) = .rateLimited := by
  intro fuel
  induction fuel with
  | zero => intro a _ h; exact absurd h (by omega)
  | succ k ih =>
    intro a hinv _ hres
    rcases h : classify (r a) with b | _ | e
    · rw [requestAux_success_step r m a k b h] at hres
      simp at hres
    · by_cases hk : k = 0
      · subst hk
        simpa using h
      · rw [requestAux_rateLimited_step r m a k h] at hres
        have hrec := ih (a + 1) (by push_cast at hinv ⊢; omega)
          (by omega) hres
        have hidx : a + 1 + k - 1 = a + (k + 1) - 1 := by omega
        rwa [hidx] at hrec
    · by_cases hl : (a : Int) = m - 1
      · rw [requestAux_failure_last_step r m a k e h hl] at hres
        simp only [CallResult.error.injEq] at hres
        exact absurd hres (classify_failure_ne_maxRetries (r a) e h)
      · rw [requestAux_failure_step r m a k e h hl] at hres
        have hk : 1 ≤ k := by
          by_contra hk0
          push_neg at hk0
          have hk1 : k = 0 := by omega
          subst hk1
          exact hl (by push_cast at hinv ⊢; omega)
        have hrec := ih (a + 1) (by push_cast at hinv ⊢; omega) hk hres
        have hidx : a + 1 + k - 1 = a + (k + 1) - 1 := by omega
        rwa [hidx] at hrec

/-- When no attempt before the final counted one succeeds (they may be any
mixture of rate-limited and caught-exception outcomes), the run's result is
decided by the final attempt alone: its payload on success, the generic
exhaustion error after a final rate-limited sleep, and the re-raised cause
itself on a caught exception. -/
theorem requestAux_last_attempt_decides (r : Nat → HttpAttempt) (m : Int) :
    ∀ fuel a : Nat, (a : Int) + (fuel : Int) = m → 1 ≤ fuel →
      (∀ i, a ≤ i → i < a + fuel - 1 → ∀ b , classify (r i) ≠ .success b) →
      (requestAux r m a fuel).result =
        (match classify (r (a + fuel - 1)) with
         | .success b => .ok b
         | .rateLimited => .error .maxRetriesExceeded
         | .failure e => .error e) := by
  intro fuel
  induction fuel with
  | zero => intro a _ h; exact absurd h (by omega)
  | succ k ih =>
    intro a hinv _ hpre
    by_cases hk : k = 0
    · subst hk
      have hl : (a : Int) = m - 1 := by push_cast at hinv ⊢; omega
      rcases h : classify (r a) with b | _ | e
      · rw [requestAux_success_step r m a 0 b h]
        simp [h]
      · rw [requestAux_rateLimited_step r m a 0 h]
        simp [requestAux, h]
      · rw [requestAux_failure_last_step r m a 0 e h hl]
        simp [h]
    · have hk1 : 1 ≤ k := by omega
      have hidx : a + 1 + k - 1 = a + (k + 1) - 1 := by omega
      have hpre' : ∀ i, a + 1 ≤ i → i < a + 1 + k - 1 → ∀ b,
          classify (r i) ≠ .success b := by
        intro i hi1 hi2 b
        exact hpre i (by omega) (by omega) b
      rcases h : classify (r a) with b | _ | e
      · exact absurd h (hpre a (Nat.le_refl a) (by omega) b)
      · rw [requestAux_rateLimited_step r m a k h]
        have hrec := ih (a + 1) (by push_cast at hinv ⊢; omega) hk1 hpre'
        rw [hrec, hidx]
      · have hl : ¬ ((a : Int) = m - 1) := by push_cast at hinv ⊢; omega
        rw [requestAux_failure_step r m a k e h hl]
        have hrec := ih (a + 1) (by push_cast at hinv ⊢; omega) hk1 hpre'
        rw [hrec, hidx]

/-- No run of the attempt loop terminates by raising `RateLimitError`. -/
theorem requestAux_result_ne_rateLimit (r : Nat → HttpAttempt) (m : Int) :
    ∀ fuel a : Nat, (requestAux r m a fuel).result ≠ .error .rateLimit := by
  intro fuel
  induction fuel with
  | zero => intro a; simp [requestAux]
  | succ k ih =>
    intro a
    rcases h : classify (r a) with b | _ | e
    · rw [requestAux_success_step r m a k b h]
      simp
    · rw [requestAux_rateLimited_step r m a k h]
      exact ih (a + 1)
    · by_cases hl : (a : Int) = m - 1
      · rw [requestAux_failure_last_step r m a k e h hl]
        have := classify_failure_ne_rateLimit (r a) e h
        simp [this]
      · rw [requestAux_failure_step r m a k e h hl]
        exact ih (a + 1)

/-- Among the attempts a run issues (indices `a, a+1, ...`), every one whose
outcome was rate-limited contributes one sleep. -/
theorem requestAux_sleeps_ge_rate_limited (r : Nat → HttpAttempt) (m : Int) :
    ∀ fuel a : Nat,
      (List.range' a (requestAux r m a fuel).attempts).countP
          (fun i => decide (classify (r i) = .rateLimited))
        ≤ (requestAux r m a fuel).sleeps := by
  intro fuel
  induction fuel with
  | zero => intro a; simp [requestAux]
  | succ k ih =>
    intro a
    rcases h : classify (r a) with b | _ | e
    · rw [requestAux_success_step r m a k b h]
      simp [List.range'_one, List.countP_cons, h]
    · rw [requestAux_rateLimited_step r m a k h]
      have hrec := ih (a + 1)
      rw [List.range'_succ, List.countP_cons]
      simp [h]
      omega
    · by_cases hl : (a : Int) = m - 1
      · rw [requestAux_failure_last_step r m a k e h hl]
        simp [List.range'_one, List.countP_cons, h]
      · rw [requestAux_failure_step r m a k e h hl]
        have hrec := ih (a + 1)
        rw [List.range'_succ, List.countP_cons]
        simp [h]
        omega

/-! ### Helper lemmas about base-url normalization -/

/-- Dropping leading slashes ignores a prepended block of slashes. -/
theorem dropWhile_slash_replicate (k : Nat) (l : List Char) :
    (List.replicate k '/' ++ l).dropWhile (fun c => c == '/') =
      l.dropWhile (fun c => c == '/') := by
  induction k with
  | zero => rfl
  | succ n ih =>
    rw [List.replicate_succ, List.cons_append, List.dropWhile_cons]
    simp [ih]

/-- `rstrip("/")` erases any block of trailing slashes. -/
theorem rstripSlash_append_replicate (l : List Char) (k : Nat) :
    rstripSlash (l ++ List.replicate k '/') = rstripSlash l := by
  unfold rstripSlash
  rw [List.reverse_append, List.reverse_replicate, dropWhile_slash_replicate]

/-- The stored base url is unchanged by trailing slashes on the input. -/
theorem initBaseUrl_append_slashes (s : String) (k : Nat) :
    initBaseUrl (s ++ String.mk (List.replicate k '/')) = initBaseUrl s := by
  unfold initBaseUrl
  rw [String.data_append, rstripSlash_append_replicate]

/-! ### The claims -/

/-- C1: the claim says a non-retryable failure (HTTP status in [400,500)
excluding 429) is raised to the caller immediately, with no backoff sleep and
no further HTTP attempt — and the source's own comment on the 4xx branch says
"Client errors (do not retry)".  The code violates this: the 4xx
`KVClientError` is caught by the generic `except ... KVClientError` clause,
which sleeps and retries unless the attempt budget is spent.  At the failing
input (max_retries = 2, every attempt answered with HTTP 400 body "bad") the
call performs one backoff sleep and a second HTTP attempt before the 400
error surfaces. -/
theorem C1_client_error_is_slept_on_and_retried :
    privRequest (fun _ => .response 400 "bad") 2 =
      ⟨.error (.clientError 400 "bad"), 2, 1⟩ := by
  rfl

/-- C2, counterexample: the claim says an all-429 run can retry forever or
perform more attempts than `max_retries`.  With `max_retries = 3` and every
response HTTP 429, the call terminates after exactly 3 attempts — not more
than the bound — raising the generic exhaustion error (it does perform 3
sleeps, one of them after the final attempt). -/
theorem C2_all_429_attempts_stay_within_bound :
    privRequest (fun _ => .response 429 "") 3
        = ⟨.error .maxRetriesExceeded, 3, 3⟩ ∧
    ¬ 3 < (privRequest (fun _ => .response 429 "") 3).attempts := by
  exact ⟨rfl, by decide⟩

/-- C2, amended: the `except RateLimitError` handler indeed never consults
the attempt ceiling — it sleeps even after the final counted attempt — but
the surrounding `for attempt in range(max_retries)` loop still bounds the
call: when every response is HTTP 429 the call performs exactly
`max_retries` attempts (never more, never forever) and `max_retries` sleeps
(one more sleep than a ceiling-checking handler would perform), then raises
the generic "Max retries exceeded" error. -/
theorem C2_amended_rate_limit_retry_bounded_by_loop
    (r : Nat → HttpAttempt) (m : Int)
    (hall : ∀ i, classify (r i) = .rateLimited) :
    privRequest r m = ⟨.error .maxRetriesExceeded, m.toNat, m.toNat⟩ :=
  requestAux_all_rate_limited r m hall m.toNat 0

/-- C2, witness for the amended theorem at max_retries = 2 under all-429
responses. -/
theorem C2_amended_witness :
    privRequest (fun _ => .response 429 "x") 2
      = ⟨.error .maxRetriesExceeded, 2, 2⟩ :=
  C2_amended_rate_limit_retry_bounded_by_loop
    (fun _ => .response 429 "x") 2 (fun _ => rfl)

/-- C3, counterexample: the claim says that when the attempt budget is
consumed without success or a non-retryable failure, a generic
retries-exhausted error distinct from the last attempt's cause is raised.
With `max_retries = 1` and the single attempt answered HTTP 500, the raised
error is exactly the last attempt's own cause `KVClientError("Server error
500")`, not the distinct generic error. -/
theorem C3_exhaustion_surfaces_last_cause :
    (privRequest (fun _ => .response 500 "oops") 1).result
        = .error (.serverError 500) ∧
    (privRequest (fun _ => .response 500 "oops") 1).result
        ≠ .error .maxRetriesExceeded := by
  exact ⟨rfl, by decide⟩

/-- C3, amended: the generic "Max retries exceeded" error is raised only
when the loop runs out with its final counted attempt rate-limited (the
necessity direction, for every response sequence); and whenever no attempt
before the final counted one succeeds — the earlier attempts may mix
rate-limited outcomes and retryable exceptions freely — a rate-limited final
attempt yields the generic error while a final attempt that raises a caught
exception re-raises that exception itself, so the caller sees the last
attempt's own cause, not the distinct generic error. -/
theorem C3_amended_exhaustion_error (r : Nat → HttpAttempt) (m : Int)
    (e : KVError) (hm : 1 ≤ m) :
    ((privRequest r m).result = .error .maxRetriesExceeded →
        classify (r (m.toNat - 1)) = .rateLimited) ∧
    ((∀ i, i < m.toNat - 1 → ∀ b, classify (r i) ≠ .success b) →
      (classify (r (m.toNat - 1)) = .rateLimited →
          (privRequest r m).result = .error .maxRetriesExceeded) ∧
      (classify (r (m.toNat - 1)) = .failure e →
          (privRequest r m).result = .error e)) := by
  have hinv : (((0 : Nat)) : Int) + ((m.toNat : Nat) : Int) = m := by
    push_cast
    omega
  have hfuel : 1 ≤ m.toNat := by omega
  constructor
  · intro hres
    have hne := requestAux_generic_implies_last_rate_limited r m m.toNat 0
      hinv hfuel hres
    simpa using hne
  · intro hpre
    have hpre0 : ∀ i, 0 ≤ i → i < 0 + m.toNat - 1 → ∀ b,
        classify (r i) ≠ .success b := by
      intro i _ hi b
      exact hpre i (by omega) b
    have hdec := requestAux_last_attempt_decides r m m.toNat 0
      hinv hfuel hpre0
    simp only [Nat.zero_add] at hdec
    constructor
    · intro hlast
      show (privRequest r m).result = .error .maxRetriesExceeded
      unfold privRequest
      rw [hdec, hlast]
    · intro hlast
      show (privRequest r m).result = .error e
      unfold privRequest
      rw [hdec, hlast]

/-- C3, witness for the amended theorem at max_retries = 2 on mixed
sequences: a 500 followed by a 429 ends in the generic error (and the
necessity direction reports the final attempt rate-limited); a timeout
followed by a 500 re-raises the server error of the final attempt. -/
theorem C3_amended_witness :
    (1 : Int) ≤ 2 ∧
    (privRequest
        (fun i => if i = 0 then .response 500 "x" else .response 429 "y")
        2).result = .error .maxRetriesExceeded ∧
    classify ((fun i => if i = 0 then HttpAttempt.response 500 "x"
        else HttpAttempt.response 429 "y") ((2 : Int).toNat - 1))
      = .rateLimited ∧
    (privRequest (fun i => if i = 0 then .timeout else .response 500 "e")
        2).result = .error (.serverError 500) := by
  refine ⟨by decide, ?_, ?_, ?_⟩
  · exact ((C3_amended_exhaustion_error
        (fun i => if i = 0 then .response 500 "x" else .response 429 "y")
        2 .maxRetriesExceeded (by decide)).2
      (by
        intro i hi b
        have h0 : i = 0 := by omega
        subst h0
        simp [classify])).1 rfl
  · exact (C3_amended_exhaustion_error
        (fun i => if i = 0 then .response 500 "x" else .response 429 "y")
        2 .maxRetriesExceeded (by decide)).1 (by rfl)
  · exact ((C3_amended_exhaustion_error
        (fun i => if i = 0 then .timeout else .response 500 "e")
        2 (.serverError 500) (by decide)).2
      (by
        intro i hi b
        have h0 : i = 0 := by omega
        subst h0
        simp [classify])).2 rfl

/-- C4: a single attempt classifies its HTTP response by the ordered rules
of the `try` block — 429 raises the rate-limit signal regardless of body;
a status in [200,400) returns the decoded body; a status in [400,500) other
than 429 raises the client error carrying status and body text; a status
≥ 500 raises the retryable server error carrying the status; and the two
transport-level failures (timeout, connection error) become the retryable
transport exceptions. -/
theorem C4_attempt_outcome_rules (s : Nat) (b : String) :
    (s = 429 → classify (.response s b) = .rateLimited) ∧
    (200 ≤ s → s < 400 → classify (.response s b) = .success b) ∧
    (400 ≤ s → s < 500 → s ≠ 429 →
        classify (.response s b) = .failure (.clientError s b)) ∧
    (500 ≤ s → classify (.response s b) = .failure (.serverError s)) ∧
    classify .timeout = .failure .timeoutError ∧
    classify .connectionFailure = .failure .connectionError := by
  refine ⟨?_, ?_, ?_, ?_, rfl, rfl⟩
  · intro h; subst h; rfl
  · intro h1 h2
    have hne : ¬ (s == 429) = true := by simp; omega
    simp [classify, hne, h2]
  · intro h1 h2 hne
    have h429 : ¬ (s == 429) = true := by simp [hne]
    have h400 : ¬ s < 400 := by omega
    simp [classify, h429, h400, h2]
  · intro h1
    have h429 : ¬ (s == 429) = true := by simp; omega
    have h400 : ¬ s < 400 := by omega
    have h500 : ¬ s < 500 := by omega
    simp [classify, h429, h400, h500]

/-- C4, witness: the four status rules applied at 429, 200, 404 and 500. -/
theorem C4_attempt_outcome_rules_witness :
    classify (.response 429 "x") = .rateLimited ∧
    classify (.response 200 "ok") = .success "ok" ∧
    classify (.response 404 "nf") = .failure (.clientError 404 "nf") ∧
    classify (.response 500 "e") = .failure (.serverError 500) :=
  ⟨(C4_attempt_outcome_rules 429 "x").1 rfl,
   (C4_attempt_outcome_rules 200 "ok").2.1 (by decide) (by decide),
   (C4_attempt_outcome_rules 404 "nf").2.2.1 (by decide) (by decide)
      (by decide),
   (C4_attempt_outcome_rules 500 "e").2.2.2.1 (by decide)⟩

/-- C5: for every attempt index n, base backoff b and jitter ceiling j, a
jitter sample drawn from the half-open interval [0, j) makes the computed
backoff delay satisfy b * 2^n ≤ delay < b * 2^n + j. -/
theorem C5_backoff_delay_bounds (b j r : ℚ) (n : Nat)
    (h0 : 0 ≤ r) (h1 : r < j) :
    b * 2 ^ n ≤ backoff_delay b n r ∧
      backoff_delay b n r < b * 2 ^ n + j := by
  unfold backoff_delay
  constructor <;> linarith

/-- C5, witness at base 1/2, jitter ceiling 3/10, attempt 2, sample 1/10. -/
theorem C5_backoff_delay_bounds_witness :
    (0 : ℚ) ≤ 1 / 10 ∧ (1 / 10 : ℚ) < 3 / 10 ∧
    (1 / 2 : ℚ) * 2 ^ 2 ≤ backoff_delay (1 / 2) 2 (1 / 10) ∧
    backoff_delay (1 / 2) 2 (1 / 10) < (1 / 2 : ℚ) * 2 ^ 2 + 3 / 10 :=
  ⟨by norm_num, by norm_num,
   (C5_backoff_delay_bounds (1 / 2) (3 / 10) (1 / 10) 2
      (by norm_num) (by norm_num)).1,
   (C5_backoff_delay_bounds (1 / 2) (3 / 10) (1 / 10) 2
      (by norm_num) (by norm_num)).2⟩

/-- C6: with max_retries = 3 and responses [500, 500, 200], the call returns
the third attempt's payload, after exactly three HTTP attempts and exactly
two backoff sleeps. -/
theorem C6_two_500_then_200_succeeds :
    privRequest
        (fun i => if i < 2 then .response 500 "boom"
                  else .response 200 "payload") 3
      = ⟨.ok "payload", 3, 2⟩ := by
  rfl

/-- C7, counterexample: the claim says that with max_attempts = 1 a
retryable failure on the first attempt surfaces a retry-exhausted error.
With `max_retries = 1` and the single attempt a timeout, the call re-raises
the timeout itself — the last attempt's own cause, not the distinct generic
"Max retries exceeded" error (zero sleeps, as the claim says). -/
theorem C7_single_attempt_reraises_cause :
    privRequest (fun _ => .timeout) 1 = ⟨.error .timeoutError, 1, 0⟩ ∧
    CallResult.error .timeoutError ≠ CallResult.error .maxRetriesExceeded := by
  exact ⟨rfl, by decide⟩

/-- C7, amended: with max_retries = 1, a retryable failure (server error,
timeout or connection error) on the first attempt is re-raised to the caller
as that attempt's own cause, with zero backoff sleeps performed. -/
theorem C7_amended_single_attempt_failure (r : Nat → HttpAttempt)
    (e : KVError) (hfail : classify (r 0) = .failure e)
    (_hkind : (∃ s, e = .serverError s) ∨ e = .timeoutError ∨
        e = .connectionError) :
    privRequest r 1 = ⟨.error e, 1, 0⟩ := by
  unfold privRequest
  rw [show ((1 : Int).toNat) = 0 + 1 from rfl]
  exact requestAux_failure_last_step r 1 0 0 e hfail (by decide)

/-- C7, witness for the amended theorem: a single 503 response. -/
theorem C7_amended_witness :
    classify (HttpAttempt.response 503 "down") = .failure (.serverError 503) ∧
    privRequest (fun _ => .response 503 "down") 1
      = ⟨.error (.serverError 503), 1, 0⟩ :=
  ⟨rfl,
   C7_amended_single_attempt_failure (fun _ => .response 503 "down")
     (.serverError 503) rfl (.inl ⟨503, rfl⟩)⟩

/-- C8: the rate-limit signal never escapes: for every response sequence and
retry bound, the call never terminates by raising `RateLimitError`, and
every attempt whose outcome was HTTP 429 contributes a backoff sleep (the
429 is converted into sleep-and-retry inside the loop). -/
theorem C8_rate_limit_never_escapes (r : Nat → HttpAttempt) (m : Int) :
    (privRequest r m).result ≠ .error .rateLimit ∧
    (List.range (privRequest r m).attempts).countP
        (fun i => decide (classify (r i) = .rateLimited))
      ≤ (privRequest r m).sleeps := by
  constructor
  · exact requestAux_result_ne_rateLimit r m m.toNat 0
  · rw [List.range_eq_range']
    exact requestAux_sleeps_ge_rate_limited r m m.toNat 0

/-- C9: a call issues at most max_retries HTTP attempts; when the client is
constructed with max_retries ≤ 0, `range(max_retries)` is empty, so the call
raises the generic "Max retries exceeded" error with zero HTTP attempts and
zero sleeps. -/
theorem C9_attempt_budget_bound (r : Nat → HttpAttempt) (m : Int) :
    (privRequest r m).attempts ≤ m.toNat ∧
    (m ≤ 0 → privRequest r m = ⟨.error .maxRetriesExceeded, 0, 0⟩) := by
  constructor
  · exact requestAux_attempts_le r m m.toNat 0
  · intro hm
    unfold privRequest
    rw [Int.toNat_of_nonpos hm]
    rfl

/-- C9, witness at max_retries = 0. -/
theorem C9_attempt_budget_bound_witness :
    (privRequest (fun _ => .timeout) 0).attempts ≤ (0 : Int).toNat ∧
    privRequest (fun _ => .timeout) 0 = ⟨.error .maxRetriesExceeded, 0, 0⟩ :=
  ⟨(C9_attempt_budget_bound (fun _ => .timeout) 0).1,
   (C9_attempt_budget_bound (fun _ => .timeout) 0).2 (by decide)⟩

/-- C10: the constructor strips every trailing '/' from base_url, each
operation's request url is the normalized base concatenated with the
operation's path, and two clients whose base urls differ only in trailing
slashes build identical requests for every operation. -/
theorem C10_trailing_slash_normalized (s : String) (m n : Nat)
    (op : Operation) :
    buildRequest (s ++ String.mk (List.replicate m '/')) op
        = buildRequest (s ++ String.mk (List.replicate n '/')) op ∧
    (buildRequest s op).url = initBaseUrl s ++ opPath op := by
  constructor
  · cases op <;>
      simp [buildRequest, requestUrl, initBaseUrl_append_slashes]
  · cases op <;> rfl

end KVSpec
